import Mathlib

/-!
Shallow embedding of the conversation-lifecycle / model-routing subsystem of
the Multi_LLM_Platform Flask application (`src/app.py`), together with proofs
settling the frozen claims C1–C10 about it.

Modelling conventions:
* SQLite tables become Lean lists kept in insertion (rowid) order; the
  `AUTOINCREMENT` primary keys become explicit `next_*_id` counters.
* Timestamps (`CURRENT_TIMESTAMP`) become abstract `Nat` clock values passed
  in as a `now` argument.
* A SQL `ORDER BY key` clause promises only that the result is a permutation
  of the selected rows that is nondecreasing in the key; SQLite leaves the
  relative order of rows with equal keys undefined.  The message listing of
  `view_conversation`, whose query has no secondary sort key, is therefore
  modelled as a relation over all admissible results
  (`view_conversation_may`).  The `history` listing is modelled with a
  concrete stable sort (`orderBy`) of the table scanned in rowid order, a
  convention that is harmless there because every property proved about it is
  insensitive to the order of tied rows.
* The Python sqlite3 transaction discipline is modelled explicitly: inserts
  build a pending state, `conn.commit()` publishes it, and `conn.close()`
  without a commit discards it (rollback).  `api_chat` commits only on the
  success path (line 289 of `src/app.py`); the `finally: conn.close()` on the
  exception path therefore rolls everything back.
* The external Ollama inference call is an input of the model: an
  `Except String String` holding either the generated text or the exception
  message.
* Python `str` operations used by the code are translated over `List Char`
  (code points), matching Python's code-point semantics:
  `s[:50]` is `List.take 50`, single-character `str.replace` is a `List.map`,
  `rsplit('.', 1)[1]` is the suffix after the last `'.'`, and `.lower()` is
  `Char.toLower` (the extensions involved are ASCII).
-/

namespace MultiLLM

/-! ### Stable sort used to model SQL ORDER BY -/

/-- Insert `a` into `l`, skipping past every element that is strictly below
`a` under `le`, so that `a` lands before any element tied with it. -/
def insertOrdered (le : α → α → Bool) (a : α) : List α → List α
  | [] => [a]
  | b :: l => if le b a && !(le a b) then b :: insertOrdered le a l else a :: b :: l

/-- Stable insertion sort: the model of a SQL `ORDER BY` clause applied to a
table scanned in rowid (insertion) order.  Elements tied under `le` keep
their relative input order. -/
def orderBy (le : α → α → Bool) : List α → List α
  | [] => []
  | a :: l => insertOrdered le a (orderBy le l)

/-! ### Data model (`init_db`, `src/app.py` lines 24–86) -/

/-- Row of the `conversations` table. -/
structure Conversation where
  id : Nat
  user_id : Nat
  model_name : String
  domain : String
  title : String
  created_at : Nat
deriving DecidableEq

/-- Row of the `messages` table (the optional `file_path` column is unused by
the modelled code paths and omitted). -/
structure Message where
  id : Nat
  conversation_id : Nat
  user_id : Nat
  role : String
  content : String
  input_type : String
  created_at : Nat
deriving DecidableEq

/-- Row of the `uploaded_files` table. -/
structure UploadedFile where
  id : Nat
  user_id : Nat
  conversation_id : Option Nat
  filename : String
  file_path : String
  file_type : String
  uploaded_at : Nat
deriving DecidableEq

/-- The committed durable store: the three tables the claims touch, the blob
store (paths written by `file.save`), and the autoincrement counters. -/
structure DB where
  conversations : List Conversation
  messages : List Message
  uploaded_files : List UploadedFile
  blobs : List String
  next_conversation_id : Nat
  next_message_id : Nat
  next_file_id : Nat
deriving DecidableEq

/-- Empty store with autoincrement counters at 1, as SQLite assigns rowids
starting from 1. -/
def DB.empty : DB :=
  { conversations := [], messages := [], uploaded_files := [], blobs := []
    next_conversation_id := 1, next_message_id := 1, next_file_id := 1 }

/-! ### Domain registry (`MODELS`, `src/app.py` lines 89–126) -/

/-- Value type of the `MODELS` table. -/
structure DomainInfo where
  name : String
  icon : String
  models : List String
  description : String
deriving DecidableEq

/-- The static domain registry `MODELS`. -/
def MODELS : List (String × DomainInfo) :=
  [ ("healthcare",
     { name := "Healthcare", icon := "🏥"
       models := ["Jayasimma/bharatbuddy", "Jayasimma/Puzhavan"]
       description := "Medical advice, health information, and wellness guidance" }),
    ("agriculture",
     { name := "Agriculture", icon := "🌾"
       models := ["Jayasimma/gennai", "Jayasimma/Puzhavan"]
       description := "Farming techniques, crop management, and agricultural practices" }),
    ("coding",
     { name := "Coding", icon := "💻"
       models := ["Jayasimma/codemium_ai", "Jayasimma/creaton-ai"]
       description := "Programming help, code review, and software development" }),
    ("education",
     { name := "Education", icon := "📚"
       models := ["Jayasimma/Buddyllama", "Jayasimma/creaton-ai"]
       description := "Learning resources, tutoring, and educational content" }),
    ("nature_medicine",
     { name := "Natural Medicine", icon := "🌿"
       models := ["Jayasimma/Puzhavan", "Jayasimma/bharatbuddy"]
       description := "Herbal remedies, traditional medicine, and natural healing" }),
    ("tamil",
     { name := "Tamil Language", icon := "🇮🇳"
       models := ["conceptsintamil/tamil-llama-7b-instruct-v0.2", "Jayasimma/Buddyllama"]
       description := "Tamil language support, translation, and cultural information" }) ]

/-! ### File-type validation (`allowed_file`, `src/app.py` lines 128–129) -/

/-- The configured allow-list `app.config['ALLOWED_EXTENSIONS']`. -/
def ALLOWED_EXTENSIONS : List String :=
  ["txt", "pdf", "png", "jpg", "jpeg", "gif", "csv", "py", "js", "html", "css", "doc", "docx"]

/-- Characters after the last `'.'` of the list, or `none` when no `'.'`
occurs: the translation of Python's `filename.rsplit('.', 1)[1]` guarded by
`'.' in filename`. -/
def lastExt : List Char → Option (List Char)
  | [] => none
  | c :: cs =>
    match lastExt cs with
    | some e => some e
    | none => if c = '.' then some cs else none

/-- Translation of `allowed_file`: `'.' in filename and
filename.rsplit('.', 1)[1].lower() in app.config['ALLOWED_EXTENSIONS']`. -/
def allowed_file (filename : String) : Bool :=
  match lastExt filename.data with
  | none => false
  | some e => ALLOWED_EXTENSIONS.contains (String.mk (e.map Char.toLower))

/-! ### Chat page route (`chat`, `src/app.py` lines 239–249) -/

/-- Translation of the route body's `model_name.replace('_', '/')`: a
single-character Python `str.replace` is a per-character map. -/
def decode_model_name (s : String) : String :=
  String.mk (s.data.map fun c => if c = '_' then '/' else c)

/-- The `/chat/<domain>/<model_name>` route: redirect (modelled as `none`)
when the domain is unknown, otherwise render the chat page with the decoded
model name and the domain's registry entry. -/
def chat (domain model_name : String) : Option (String × String × DomainInfo) :=
  match MODELS.lookup domain with
  | none => none
  | some info => some (domain, decode_model_name model_name, info)

/-! ### Chat API (`api_chat`, `src/app.py` lines 251–304) -/

/-- JSON body of a `POST /api/chat` request. -/
structure ChatRequest where
  model : String
  message : String
  conversation_id : Option Nat
  domain : String
deriving DecidableEq

/-- JSON response of `api_chat` plus the HTTP status; keys absent from the
`jsonify` dictionary on a given path are modelled as `none`. -/
structure ChatResponse where
  success : Bool
  response : Option String
  conversation_id : Option Nat
  error : Option String
  status : Nat
deriving DecidableEq

/-- Python truthiness of the optional `conversation_id` field, as tested by
`if not conversation_id:` (absent and `0` are both falsy). -/
def isFalsy : Option Nat → Bool
  | none => true
  | some n => n == 0

/-- Translation of `title = user_message[:50] + '...' if len(user_message) > 50
else user_message` (line 266). -/
def makeTitle (user_message : String) : String :=
  if user_message.length > 50 then String.mk (user_message.data.take 50) ++ "..." else user_message

/-- Effect of the `INSERT INTO conversations ...` statement (lines 267–268)
followed by reading `c.lastrowid`: appends the row and returns its id.  Note
this acts on the pending transaction state, not the committed store. -/
def insertConversation (db : DB) (uid : Nat) (model domain title : String) (now : Nat) :
    Nat × DB :=
  (db.next_conversation_id,
   { db with
     conversations := db.conversations ++
       [{ id := db.next_conversation_id, user_id := uid, model_name := model
          domain := domain, title := title, created_at := now }]
     next_conversation_id := db.next_conversation_id + 1 })

/-- Effect of an `INSERT INTO messages ...` statement (lines 272–273 and
286–287) on the pending transaction state. -/
def insertMessage (db : DB) (cid uid : Nat) (role content itype : String) (now : Nat) : DB :=
  { db with
    messages := db.messages ++
      [{ id := db.next_message_id, conversation_id := cid, user_id := uid
         role := role, content := content, input_type := itype, created_at := now }]
    next_message_id := db.next_message_id + 1 }

/-- Translation of `api_chat`.  The handler never verifies that a supplied
`conversation_id` exists or is owned by the caller; it inserts the user
message, calls Ollama, and only on success inserts the assistant message and
runs `conn.commit()`.  On an exception the `finally: conn.close()` closes the
connection without committing, so the committed store is returned unchanged
(SQLite rolls the open transaction back). -/
def api_chat (db : DB) (uid : Nat) (req : ChatRequest)
    (ollamaResult : Except String String) (now : Nat) : ChatResponse × DB :=
  let step1 :=
    if isFalsy req.conversation_id then
      insertConversation db uid req.model req.domain (makeTitle req.message) now
    else
      (req.conversation_id.getD 0, db)
  let conversation_id := step1.1
  let pending := insertMessage step1.2 conversation_id uid "user" req.message "text" now
  match ollamaResult with
  | Except.ok ai_response =>
    let committed := insertMessage pending conversation_id uid "assistant" ai_response "text" now
    ({ success := true, response := some ai_response
       conversation_id := some conversation_id, error := none, status := 200 },
     committed)
  | Except.error e =>
    ({ success := false, response := none, conversation_id := none
       error := some e, status := 500 },
     db)

/-! ### Upload API (`upload_file`, `src/app.py` lines 306–334) -/

/-- Multipart form of a `POST /api/upload` request: `file` is `none` when no
`file` part is present, otherwise the original filename (possibly empty when
no file was selected in the form). -/
structure UploadRequest where
  file : Option String
  conversation_id : Option Nat
deriving DecidableEq

/-- JSON response of `upload_file` plus the HTTP status. -/
structure UploadResponse where
  success : Bool
  error : Option String
  filepath : Option String
  filename : Option String
  status : Nat
deriving DecidableEq

/-- Translation of `upload_file`.  `sec` models the external
`werkzeug.utils.secure_filename`, and `ts` the `strftime('%Y%m%d_%H%M%S')`
timestamp string, both inputs of the model.  On the accept path the blob is
written by `file.save` and the metadata row committed; on every reject path
nothing is written. -/
def upload_file (db : DB) (uid : Nat) (req : UploadRequest)
    (sec : String → String) (ts : String) (now : Nat) : UploadResponse × DB :=
  match req.file with
  | none =>
    ({ success := false, error := some "No file provided"
       filepath := none, filename := none, status := 400 }, db)
  | some original =>
    if original = "" then
      ({ success := false, error := some "No file selected"
         filepath := none, filename := none, status := 400 }, db)
    else if allowed_file original then
      let stored := toString uid ++ "_" ++ ts ++ "_" ++ sec original
      let filepath := "uploads/" ++ stored
      let row : UploadedFile :=
        { id := db.next_file_id, user_id := uid, conversation_id := req.conversation_id
          filename := original, file_path := filepath
          file_type := String.mk (((lastExt original.data).getD []).map Char.toLower)
          uploaded_at := now }
      ({ success := true, error := none
         filepath := some filepath, filename := some stored, status := 200 },
       { db with
         blobs := db.blobs ++ [filepath]
         uploaded_files := db.uploaded_files ++ [row]
         next_file_id := db.next_file_id + 1 })
    else
      ({ success := false, error := some "Invalid file type"
         filepath := none, filename := none, status := 400 }, db)

/-! ### History (`history`, `src/app.py` lines 336–351) -/

/-- One row of the history query result
`(c.id, c.model_name, c.domain, c.title, c.created_at, COUNT(m.id))`. -/
structure HistoryRow where
  id : Nat
  model_name : String
  domain : String
  title : String
  created_at : Nat
  message_count : Nat
deriving DecidableEq

/-- The aggregate row the `LEFT JOIN ... GROUP BY c.id` query produces for one
conversation: `COUNT(m.id)` counts the matching messages, and a conversation
with no matching message contributes a single all-`NULL` join row, counted
as 0 — which is exactly the length of the filter. -/
def historyRowOf (db : DB) (c : Conversation) : HistoryRow :=
  { id := c.id, model_name := c.model_name, domain := c.domain, title := c.title
    created_at := c.created_at
    message_count := (db.messages.filter fun m => m.conversation_id == c.id).length }

/-- Translation of the `history` query: rows for the caller's conversations
(`WHERE c.user_id = ?`), grouped per conversation, `ORDER BY c.created_at
DESC`. -/
def history (db : DB) (uid : Nat) : List HistoryRow :=
  orderBy (fun a b => decide (b.created_at ≤ a.created_at))
    ((db.conversations.filter fun c => c.user_id == uid).map (historyRowOf db))

/-! ### Conversation view (`view_conversation`, `src/app.py` lines 353–374) -/

/-- Contract of the message query's `ORDER BY created_at ASC`: the output is
some permutation of the selected rows that is nondecreasing in `created_at`.
The query names no secondary sort key, and SQLite leaves the relative order
of rows with equal keys undefined, so every such permutation is an
admissible result. -/
def admissibleOrdering (rows out : List Message) : Prop :=
  List.Perm out rows ∧ out.Pairwise fun a b => a.created_at ≤ b.created_at

/-- Translation of `view_conversation` as the relation between a request and
the results the code may produce.  The conversation lookup is deterministic:
it filters by `(id, user_id)` jointly, and on a miss the handler redirects
(modelled as the `none` result).  The message list, however, is only
constrained by `admissibleOrdering`, because its `ORDER BY created_at ASC`
has no secondary key. -/
def view_conversation_may (db : DB) (uid cid : Nat) :
    Option (Conversation × List Message) → Prop
  | none => db.conversations.find? (fun c => c.id == cid && c.user_id == uid) = none
  | some r =>
    db.conversations.find? (fun c => c.id == cid && c.user_id == uid) = some r.1 ∧
    admissibleOrdering (db.messages.filter fun m => m.conversation_id == cid) r.2

/-! ### Lemmas about the stable sort -/

theorem insertOrdered_perm (le : α → α → Bool) (a : α) (l : List α) :
    List.Perm (insertOrdered le a l) (a :: l) := by
  induction l with
  | nil => rfl
  | cons b l ih =>
    unfold insertOrdered
    split
    · exact (ih.cons b).trans (List.Perm.swap a b l)
    · rfl

theorem orderBy_perm (le : α → α → Bool) (l : List α) : List.Perm (orderBy le l) l := by
  induction l with
  | nil => rfl
  | cons a l ih => exact (insertOrdered_perm le a (orderBy le l)).trans (ih.cons a)

theorem orderBy_of_pairwise (le : α → α → Bool) :
    ∀ {l : List α}, l.Pairwise (fun x y => le x y = true) → orderBy le l = l := by
  intro l
  induction l with
  | nil => intro _; rfl
  | cons a l ih =>
    intro h
    rw [orderBy, ih h.of_cons]
    cases l with
    | nil => rfl
    | cons b t =>
      have hab : le a b = true := List.rel_of_pairwise_cons h (List.mem_cons_self b t)
      simp [insertOrdered, hab]

theorem pairwise_insertOrdered (le : α → α → Bool)
    (total : ∀ a b, le a b || le b a)
    (htrans : ∀ a b c, le a b = true → le b c = true → le a c = true) (a : α) :
    ∀ {l : List α}, l.Pairwise (fun x y => le x y = true) →
      (insertOrdered le a l).Pairwise (fun x y => le x y = true) := by
  intro l
  induction l with
  | nil => intro _; simp [insertOrdered]
  | cons b t ih =>
    intro h
    rw [List.pairwise_cons] at h
    unfold insertOrdered
    by_cases hc : (le b a && !(le a b)) = true
    · rw [if_pos hc]
      rw [Bool.and_eq_true, Bool.not_eq_true'] at hc
      rw [List.pairwise_cons]
      refine ⟨?_, ih h.2⟩
      intro x hx
      rcases List.mem_cons.mp ((insertOrdered_perm le a t).mem_iff.mp hx) with hxa | hxt
      · rw [hxa]; exact hc.1
      · exact h.1 x hxt
    · rw [if_neg hc]
      have hab : le a b = true := by
        cases hab : le a b with
        | true => rfl
        | false =>
          have hor := total a b
          rw [hab, Bool.false_or] at hor
          rw [hor, hab] at hc
          simp at hc
      rw [List.pairwise_cons]
      refine ⟨?_, List.pairwise_cons.mpr h⟩
      intro x hx
      rcases List.mem_cons.mp hx with hxb | hxt
      · rw [hxb]; exact hab
      · exact htrans a b x hab (h.1 x hxt)

theorem pairwise_orderBy (le : α → α → Bool)
    (total : ∀ a b, le a b || le b a)
    (htrans : ∀ a b c, le a b = true → le b c = true → le a c = true) :
    ∀ (l : List α), (orderBy le l).Pairwise (fun x y => le x y = true)
  | [] => List.Pairwise.nil
  | a :: l =>
    pairwise_insertOrdered le total htrans a (pairwise_orderBy le total htrans l)

/-! ### Claim C1 -/

/-- Store for the cross-user scenario: conversation 1 exists and is owned by
user 2, while user 1 is the caller. -/
def db_foreign : DB :=
  { conversations := [{ id := 1, user_id := 2, model_name := "Jayasimma/bharatbuddy"
                        domain := "healthcare", title := "hello", created_at := 1 }]
    messages := [], uploaded_files := [], blobs := []
    next_conversation_id := 2, next_message_id := 1, next_file_id := 1 }

/-- C1: the claim states that `api_chat` loads a supplied conversation,
verifies its owner equals the caller, and fails NotFound/Forbidden otherwise.
The handler performs no such check: user 1 submitting a turn against
conversation 1 — which exists and is owned by user 2, not user 1 — succeeds
and appends user-1 messages into user 2's conversation. -/
theorem api_chat_no_ownership_check :
    (db_foreign.conversations.filter fun c => c.id == 1 && c.user_id == 2).length = 1 ∧
    (db_foreign.conversations.filter fun c => c.id == 1 && c.user_id == 1) = [] ∧
    (api_chat db_foreign 1 (ChatRequest.mk "Jayasimma/bharatbuddy" "hi" (some 1) "healthcare")
      (Except.ok "reply") 2).1.success = true ∧
    ((api_chat db_foreign 1 (ChatRequest.mk "Jayasimma/bharatbuddy" "hi" (some 1) "healthcare")
      (Except.ok "reply") 2).2.messages.filter
        fun m => m.conversation_id == 1 && m.user_id == 1).length = 2 := by
  decide

/-! ### Claim C2 -/

/-- C2: the claim states the user-role message is durably persisted before the
inference call and survives an inference failure.  In the code
`conn.commit()` is only reached after a successful inference; on an exception
the `finally: conn.close()` discards the open transaction, so the committed
store after a failed call is exactly the original store — in particular the
empty store still holds no message at all after a failed turn. -/
theorem api_chat_user_message_rolled_back :
    (∀ (db : DB) (uid : Nat) (req : ChatRequest) (e : String) (now : Nat),
      (api_chat db uid req (Except.error e) now).2 = db) ∧
    (api_chat DB.empty 1 (ChatRequest.mk "Jayasimma/gennai" "hello" none "agriculture")
      (Except.error "backend unreachable") 1).2.messages = [] := by
  exact ⟨fun db uid req e now => rfl, rfl⟩

/-! ### Claim C3 -/

/-- C3 counterexample: a concrete failed turn (new conversation, inference
error) whose error response carries no conversation id at all — the `jsonify`
dictionary on the exception path has only `success` and `error` keys. -/
theorem api_chat_error_drops_conversation_id :
    (api_chat DB.empty 1 (ChatRequest.mk "Jayasimma/codemium_ai" "hi" none "coding")
      (Except.error "timeout") 1).1.success = false ∧
    (api_chat DB.empty 1 (ChatRequest.mk "Jayasimma/codemium_ai" "hi" none "coding")
      (Except.error "timeout") 1).1.conversation_id = none ∧
    (api_chat DB.empty 1 (ChatRequest.mk "Jayasimma/codemium_ai" "hi" none "coding")
      (Except.error "timeout") 1).1.error = some "timeout" := by
  decide

/-- C3 amended: for every turn whose inference call fails, the response is
exactly `success = false` with the stringified exception and HTTP 500; it
does not include the active conversation id. -/
theorem api_chat_error_response_shape :
    ∀ (db : DB) (uid : Nat) (req : ChatRequest) (e : String) (now : Nat),
      (api_chat db uid req (Except.error e) now).1 =
        { success := false, response := none, conversation_id := none
          error := some e, status := 500 } := by
  intro db uid req e now
  rfl

/-! ### Claim C4 -/

/-- C4 counterexample: a turn with an empty utterance is not rejected — the
call succeeds, a conversation whose title is the empty string is committed,
and an empty user message is persisted. -/
theorem api_chat_empty_message_not_rejected :
    (api_chat DB.empty 1 (ChatRequest.mk "Jayasimma/bharatbuddy" "" none "healthcare")
      (Except.ok "reply") 1).1.success = true ∧
    (api_chat DB.empty 1 (ChatRequest.mk "Jayasimma/bharatbuddy" "" none "healthcare")
      (Except.ok "reply") 1).2.conversations.map Conversation.title = [""] ∧
    (api_chat DB.empty 1 (ChatRequest.mk "Jayasimma/bharatbuddy" "" none "healthcare")
      (Except.ok "reply") 1).2.messages.map (fun m => (m.role, m.content)) =
      [("user", ""), ("assistant", "reply")] := by
  decide

/-- C4 amended: `api_chat` performs no emptiness validation; an empty
utterance is processed like any other — when `conversationRef` is absent a
conversation with empty title is created and an empty user message inserted,
committed whenever inference succeeds. -/
theorem api_chat_empty_message_processed :
    ∀ (db : DB) (uid : Nat) (model dom t : String) (now : Nat),
      api_chat db uid (ChatRequest.mk model "" none dom) (Except.ok t) now =
        ({ success := true, response := some t
           conversation_id := some db.next_conversation_id, error := none, status := 200 },
         { db with
           conversations := db.conversations ++
             [{ id := db.next_conversation_id, user_id := uid, model_name := model
                domain := dom, title := "", created_at := now }]
           messages := db.messages ++
             [{ id := db.next_message_id, conversation_id := db.next_conversation_id
                user_id := uid, role := "user", content := "", input_type := "text"
                created_at := now },
              { id := db.next_message_id + 1, conversation_id := db.next_conversation_id
                user_id := uid, role := "assistant", content := t, input_type := "text"
                created_at := now }]
           next_conversation_id := db.next_conversation_id + 1
           next_message_id := db.next_message_id + 2 }) := by
  intro db uid model dom t now
  simp [api_chat, insertConversation, insertMessage, makeTitle, isFalsy]

/-! ### Claim C5 -/

/-- Concrete store with a creation-time tie: both messages of conversation 1
carry timestamp 5 (realistic, since `CURRENT_TIMESTAMP` has one-second
resolution and a user/assistant pair of one turn lands within a second). -/
def db_tied : DB :=
  { conversations := [Conversation.mk 1 1 "Jayasimma/bharatbuddy" "healthcare" "hello there" 1]
    messages := [Message.mk 1 1 1 "user" "hi" "text" 5, Message.mk 2 1 1 "assistant" "yo" "text" 5]
    uploaded_files := [], blobs := []
    next_conversation_id := 2, next_message_id := 3, next_file_id := 1 }

/-- C5: the claim (spec invariant 2) requires ties in creation time to be
broken by the monotonic sequence id, so that the displayed order always
equals the insertion order.  The query at `src/app.py:369` orders by
`created_at` alone — it names no secondary sort key and does not even select
the `id` column — and SQLite leaves the relative order of rows with equal
keys undefined.  At the tied store both the insertion order and its reversal
are admissible query results, and the reversed one violates the claimed
tie-break and differs from the insertion order: the code does not guarantee
the claimed ordering. -/
theorem view_conversation_tie_order_undefined :
    view_conversation_may db_tied 1 1
      (some (Conversation.mk 1 1 "Jayasimma/bharatbuddy" "healthcare" "hello there" 1,
        [Message.mk 1 1 1 "user" "hi" "text" 5, Message.mk 2 1 1 "assistant" "yo" "text" 5])) ∧
    view_conversation_may db_tied 1 1
      (some (Conversation.mk 1 1 "Jayasimma/bharatbuddy" "healthcare" "hello there" 1,
        [Message.mk 2 1 1 "assistant" "yo" "text" 5, Message.mk 1 1 1 "user" "hi" "text" 5])) ∧
    [Message.mk 2 1 1 "assistant" "yo" "text" 5, Message.mk 1 1 1 "user" "hi" "text" 5] ≠
      db_tied.messages ∧
    ¬ List.Pairwise (fun a b =>
        a.created_at < b.created_at ∨ (a.created_at = b.created_at ∧ a.id < b.id))
      [Message.mk 2 1 1 "assistant" "yo" "text" 5,
       Message.mk 1 1 1 "user" "hi" "text" 5] := by
  refine ⟨⟨by decide, by decide, by decide⟩, ⟨by decide, by decide, by decide⟩,
    by decide, by decide⟩

/-! ### Claim C6 -/

/-- C6: for a turn with no conversation reference, the derived title is the
utterance itself when its length is at most 50 characters and the 50-character
prefix followed by the ellipsis marker otherwise, and the committed new
conversation is owned by the caller and carries `(modelId, domain, title)`. -/
theorem api_chat_title_derivation :
    ∀ (db : DB) (uid : Nat) (model dom msg t : String) (now : Nat),
      (msg.length ≤ 50 → makeTitle msg = msg) ∧
      (50 < msg.length → makeTitle msg = String.mk (msg.data.take 50) ++ "...") ∧
      (api_chat db uid (ChatRequest.mk model msg none dom) (Except.ok t) now).2.conversations =
        db.conversations ++
          [Conversation.mk db.next_conversation_id uid model dom (makeTitle msg) now] := by
  intro db uid model dom msg t now
  refine ⟨?_, ?_, rfl⟩
  · intro h; unfold makeTitle; rw [if_neg (by omega)]
  · intro h; unfold makeTitle; rw [if_pos (by omega)]

/-- Utterance of 51 characters, exercising the truncation branch. -/
def longUtterance : String := "aaaaaaaaaaaaaaaaaaaaaaaaaaaaaaaaaaaaaaaaaaaaaaaaaaa"

/-- Witness for C6: a 5-character utterance is kept whole; the 51-character
utterance is cut to its 50-character prefix plus the marker. -/
theorem api_chat_title_derivation_witness :
    makeTitle "hello" = "hello" ∧
    makeTitle longUtterance = String.mk (longUtterance.data.take 50) ++ "..." :=
  ⟨(api_chat_title_derivation DB.empty 1 "m" "coding" "hello" "t" 0).1 (by decide),
   (api_chat_title_derivation DB.empty 1 "m" "coding" longUtterance "t" 0).2.1 (by decide)⟩

/-! ### Claim C7 -/

/-- Conversation id a turn runs under: the freshly assigned id when the
request carries no (truthy) conversation id, the supplied one otherwise. -/
def activeConversationId (db : DB) (req : ChatRequest) : Nat :=
  if isFalsy req.conversation_id then db.next_conversation_id else req.conversation_id.getD 0

/-- C7: an assistant message is committed exactly when the inference call
succeeded — a successful turn commits precisely the user message followed by
one assistant message carrying the returned text, while a failed turn commits
no assistant message (nor anything else). -/
theorem api_chat_assistant_iff_inference_ok :
    ∀ (db : DB) (uid : Nat) (req : ChatRequest) (now : Nat),
      (∀ t, (api_chat db uid req (Except.ok t) now).2.messages =
        db.messages ++
          [Message.mk db.next_message_id (activeConversationId db req) uid
             "user" req.message "text" now,
           Message.mk (db.next_message_id + 1) (activeConversationId db req) uid
             "assistant" t "text" now]) ∧
      (∀ e, (api_chat db uid req (Except.error e) now).2.messages = db.messages) := by
  intro db uid req now
  constructor
  · intro t
    by_cases h : isFalsy req.conversation_id
    · simp [api_chat, insertConversation, insertMessage, activeConversationId, h]
    · simp [api_chat, insertConversation, insertMessage, activeConversationId, h]
  · intro e
    rfl

/-! ### Claim C8 -/

/-- C8: an upload with no `file` part fails with the distinct
"No file provided" error; a named file whose filename has no extension or
whose lowercased extension is outside the allow-list is rejected with
"Invalid file type" while the store (blobs and metadata rows alike) is left
untouched; an allowed filename is stored — the blob is written, a metadata
row is committed, and the stored identifier is returned. -/
theorem upload_file_validation :
    ∀ (db : DB) (uid : Nat) (cid : Option Nat) (sec : String → String) (ts : String)
      (now : Nat) (fname : String),
      (upload_file db uid (UploadRequest.mk none cid) sec ts now =
        (UploadResponse.mk false (some "No file provided") none none 400, db)) ∧
      (fname ≠ "" →
        (lastExt fname.data = none ∨
          String.mk (((lastExt fname.data).getD []).map Char.toLower) ∉ ALLOWED_EXTENSIONS) →
        upload_file db uid (UploadRequest.mk (some fname) cid) sec ts now =
          (UploadResponse.mk false (some "Invalid file type") none none 400, db)) ∧
      (fname ≠ "" → allowed_file fname = true →
        upload_file db uid (UploadRequest.mk (some fname) cid) sec ts now =
          (UploadResponse.mk true none
            (some ("uploads/" ++ (toString uid ++ "_" ++ ts ++ "_" ++ sec fname)))
            (some (toString uid ++ "_" ++ ts ++ "_" ++ sec fname)) 200,
           { db with
             blobs := db.blobs ++ ["uploads/" ++ (toString uid ++ "_" ++ ts ++ "_" ++ sec fname)]
             uploaded_files := db.uploaded_files ++
               [UploadedFile.mk db.next_file_id uid cid fname
                 ("uploads/" ++ (toString uid ++ "_" ++ ts ++ "_" ++ sec fname))
                 (String.mk (((lastExt fname.data).getD []).map Char.toLower)) now]
             next_file_id := db.next_file_id + 1 })) := by
  intro db uid cid sec ts now fname
  refine ⟨rfl, ?_, ?_⟩
  · intro hne hbad
    have hall : allowed_file fname = false := by
      unfold allowed_file
      cases hle : lastExt fname.data with
      | none => rfl
      | some e =>
        rcases hbad with h | h
        · rw [hle] at h; exact Option.noConfusion h
        · rw [hle] at h
          simpa using h
    simp [upload_file, hne, hall]
  · intro hne hok
    simp [upload_file, hne, hok]

/-- Witness for C8, matching the spec's own test vector: `report.exe` is
rejected leaving the empty store empty, while `report.pdf` is stored and its
stored identifier returned. -/
theorem upload_file_validation_witness :
    (upload_file DB.empty 1 (UploadRequest.mk (some "report.exe") none) id "20250101_000000" 1 =
      (UploadResponse.mk false (some "Invalid file type") none none 400, DB.empty)) ∧
    (upload_file DB.empty 1 (UploadRequest.mk (some "report.pdf") none) id "20250101_000000" 1 =
      (UploadResponse.mk true none
        (some ("uploads/" ++ (toString 1 ++ "_" ++ "20250101_000000" ++ "_" ++ id "report.pdf")))
        (some (toString 1 ++ "_" ++ "20250101_000000" ++ "_" ++ id "report.pdf")) 200,
       { DB.empty with
         blobs := DB.empty.blobs ++
           ["uploads/" ++ (toString 1 ++ "_" ++ "20250101_000000" ++ "_" ++ id "report.pdf")]
         uploaded_files := DB.empty.uploaded_files ++
           [UploadedFile.mk DB.empty.next_file_id 1 none "report.pdf"
             ("uploads/" ++ (toString 1 ++ "_" ++ "20250101_000000" ++ "_" ++ id "report.pdf"))
             (String.mk (((lastExt "report.pdf".data).getD []).map Char.toLower)) 1]
         next_file_id := DB.empty.next_file_id + 1 })) :=
  ⟨(upload_file_validation DB.empty 1 none id "20250101_000000" 1 "report.exe").2.1
      (by decide) (by decide),
   (upload_file_validation DB.empty 1 none id "20250101_000000" 1 "report.pdf").2.2
      (by decide) (by decide)⟩

/-! ### Claim C9 -/

/-- C9: the history listing holds exactly one aggregate row per conversation
owned by the caller (a permutation of the filtered map, so no other user's
conversation leaks in and none of the caller's is dropped), is ordered by
creation time
descending, and a conversation with no messages still appears, with count
0. -/
theorem history_rows :
    ∀ (db : DB) (uid : Nat),
      List.Perm (history db uid)
        ((db.conversations.filter fun c => c.user_id == uid).map (historyRowOf db)) ∧
      (history db uid).Pairwise (fun a b => b.created_at ≤ a.created_at) ∧
      (∀ c ∈ db.conversations, c.user_id = uid → historyRowOf db c ∈ history db uid) ∧
      (∀ c ∈ db.conversations, c.user_id = uid →
        (∀ m ∈ db.messages, m.conversation_id ≠ c.id) →
        historyRowOf db c ∈ history db uid ∧ (historyRowOf db c).message_count = 0) := by
  intro db uid
  have hperm := orderBy_perm (fun a b => decide (b.created_at ≤ a.created_at))
    ((db.conversations.filter fun c => c.user_id == uid).map (historyRowOf db))
  have hmem : ∀ c ∈ db.conversations, c.user_id = uid →
      historyRowOf db c ∈ history db uid := by
    intro c hc hcu
    exact hperm.mem_iff.mpr
      (List.mem_map_of_mem _ (List.mem_filter.mpr ⟨hc, by simp [hcu]⟩))
  refine ⟨hperm, ?_, hmem, ?_⟩
  · have hsorted := pairwise_orderBy (fun a b : HistoryRow => decide (b.created_at ≤ a.created_at))
      (fun a b => by simpa using Nat.le_total b.created_at a.created_at)
      (fun a b c hab hbc => by simp at hab hbc ⊢; omega)
      ((db.conversations.filter fun c => c.user_id == uid).map (historyRowOf db))
    exact hsorted.imp fun h => by simpa using h
  · intro c hc hcu hnone
    refine ⟨hmem c hc hcu, ?_⟩
    show (db.messages.filter fun m => m.conversation_id == c.id).length = 0
    rw [List.filter_eq_nil_iff.mpr (by intro m hm; simpa using hnone m hm)]
    rfl

/-- Store with two conversations of user 1 — the newer one empty — and one
conversation of user 2. -/
def db_history : DB :=
  { conversations := [Conversation.mk 1 1 "Jayasimma/gennai" "agriculture" "first" 1,
                      Conversation.mk 2 1 "Jayasimma/gennai" "agriculture" "second" 5,
                      Conversation.mk 3 2 "Jayasimma/Puzhavan" "healthcare" "other" 3]
    messages := [Message.mk 1 1 1 "user" "hi" "text" 1]
    uploaded_files := [], blobs := []
    next_conversation_id := 4, next_message_id := 2, next_file_id := 1 }

/-- Witness for C9: user 1's message-less conversation 2 still appears in
user 1's history, with aggregate count 0. -/
theorem history_rows_witness :
    historyRowOf db_history (Conversation.mk 2 1 "Jayasimma/gennai" "agriculture" "second" 5) ∈
      history db_history 1 ∧
    (historyRowOf db_history
      (Conversation.mk 2 1 "Jayasimma/gennai" "agriculture" "second" 5)).message_count = 0 :=
  (history_rows db_history 1).2.2.2
    (Conversation.mk 2 1 "Jayasimma/gennai" "agriculture" "second" 5)
    (by decide) (by decide) (by decide)

/-! ### Claim C10 -/

/-- Modelled from the claim's wording: the natural URL encoding of a model
identifier replaces each slash by an underscore — the direction the chat
route's decode is supposed to invert. -/
def encode_model_name (s : String) : String :=
  String.mk (s.data.map fun c => if c = '/' then '_' else c)

/-- C10: the chat route decodes its model segment by turning every underscore
into a slash, so for the registered coding model `Jayasimma/codemium_ai` —
whose identifier itself contains an underscore — decode is not a left inverse
of the natural encoding: the route renders `Jayasimma/codemium/ai` instead of
the original identifier. -/
theorem chat_model_name_decode_mismatch :
    (MODELS.lookup "coding").map DomainInfo.models =
      some ["Jayasimma/codemium_ai", "Jayasimma/creaton-ai"] ∧
    encode_model_name "Jayasimma/codemium_ai" = "Jayasimma_codemium_ai" ∧
    decode_model_name (encode_model_name "Jayasimma/codemium_ai") = "Jayasimma/codemium/ai" ∧
    decode_model_name (encode_model_name "Jayasimma/codemium_ai") ≠ "Jayasimma/codemium_ai" ∧
    (chat "coding" (encode_model_name "Jayasimma/codemium_ai")).map
        (fun r => r.2.1) = some "Jayasimma/codemium/ai" := by
  decide

end MultiLLM
